import Mathlib

/-!
Verification of the anaconda widgets/scripts repository.

This file gives a shallow embedding, in Lean, of the code relevant to the
behavioural claims about the repository:

* `src/widgets/src/SpokeWindow.c` — `get_topbar_width`, `get_topbar_height`,
  `anaconda_spoke_window_on_draw`, `anaconda_spoke_window_size_allocate`,
  the button/F12 signal wiring;
* `src/widgets/src/HubWindow.c` — `get_sidebar_width`,
  `anaconda_hub_window_on_draw`, `anaconda_hub_window_size_allocate`,
  `anaconda_hub_window_get_spoke_area`, the GtkBuildable internal-child lookup;
* `src/data/command-stubs/list-harddrives-stub` — the disk enumeration stub;
* `src/scripts/anaconda-yum` — `run_yum_transaction` and `RPMCallback`.

Machine arithmetic is modelled exactly: the C expression
`allocation.width * topbar_width_percentage` multiplies an `int` by the C
`float` constant `.18`, whose IEEE-754 single-precision value is
3019899 / 2^24.  The multiplication result is rounded to 24 significant bits
(round to nearest, ties to even) and the `return` converts it to `int` by
truncation toward zero, which on non-negative values is floor.
-/

/-! ## Exact model of IEEE-754 single-precision rounding

A non-negative single-precision value is modelled by a natural-number
numerator over the fixed denominator 2^24 (every value arising in
`get_topbar_width` fits this form: `W` itself and `W * (3019899 / 2^24)`).
`roundSig` rounds such a numerator to 24 significant bits with
round-to-nearest, ties-to-even — exactly what the hardware multiplication
does, since no overflow or underflow can occur in the relevant range. -/

/-- Fuel-driven bit length: `bitLenAux fuel v` is the number of binary digits
of `v`, provided `v ≤ fuel`.  A fuel-based definition keeps the function
structurally recursive, so concrete instances reduce inside `decide`. -/
def bitLenAux : Nat → Nat → Nat
  | 0, _ => 0
  | fuel + 1, v => if v = 0 then 0 else bitLenAux fuel (v / 2) + 1

/-- Number of binary digits of `v` (0 for 0). -/
def bitLen (v : Nat) : Nat := bitLenAux v v

/-- Round the value `v / 2^24` to 24 significant bits, round-to-nearest with
ties-to-even, returning the numerator of the result over the same
denominator 2^24.  Values below 2^24 already fit in 24 bits. -/
def roundSig (v : Nat) : Nat :=
  if v < 2 ^ 24 then v
  else
    if 2 ^ (bitLen v - 24 - 1) < v % 2 ^ (bitLen v - 24) ∨
        (v % 2 ^ (bitLen v - 24) = 2 ^ (bitLen v - 24 - 1) ∧
          v / 2 ^ (bitLen v - 24) % 2 = 1) then
      (v / 2 ^ (bitLen v - 24) + 1) * 2 ^ (bitLen v - 24)
    else
      v / 2 ^ (bitLen v - 24) * 2 ^ (bitLen v - 24)

/-- Embedding of `get_topbar_width` from `SpokeWindow.c`:

  `float topbar_width_percentage = .18;`
  `return allocation.width * topbar_width_percentage;`

The C computation converts the `int` width to `float` (one rounding, the
identity for widths below 2^24), multiplies by the single-precision constant
0.18f = 3019899/2^24 with one round-to-nearest-even, and truncates the
non-negative product toward zero when converting back to `int`. -/
def get_topbar_width (width : Nat) : Nat :=
  roundSig (3019899 * roundSig width) / 2 ^ 24

/-- Embedding of `get_sidebar_width` from `HubWindow.c`: textually the same
computation as `get_topbar_width` (`float sidebar_width_percentage = .18;`
`return allocation.width * sidebar_width_percentage;`). -/
def get_sidebar_width (width : Nat) : Nat :=
  roundSig (3019899 * roundSig width) / 2 ^ 24

/-! ## Window geometry: size_allocate and draw (SpokeWindow.c, HubWindow.c)

A GTK allocation is a rectangle `(x, y, width, height)` of C `int`s; GTK
allocations have non-negative sizes, so width and height are `Nat` while the
offsets stay `Int`.  The child allocation computed inside the two
`size_allocate` overrides is plain C `int` arithmetic, modelled over `Int`. -/

structure GtkAllocation where
  x : Int
  y : Int
  width : Nat
  height : Nat
  deriving DecidableEq

structure ChildAllocation where
  x : Int
  y : Int
  width : Int
  height : Int
  deriving DecidableEq

/-- The single child of the window (`gtk_bin_get_child`), reduced to the one
property `size_allocate` inspects: `gtk_widget_get_visible`. -/
structure ChildWidget where
  visible : Bool
  deriving DecidableEq

/-- Embedding of `anaconda_spoke_window_size_allocate` (SpokeWindow.c):
stores the new allocation on the window (`gtk_widget_set_allocation`),
computes the topbar width from the freshly stored width, builds the child
allocation `(x + topbar, y, width - topbar, height)`, and allocates it to
the child only when a child exists and is visible; otherwise the child is
untouched (`none`). -/
def anaconda_spoke_window_size_allocate (allocation : GtkAllocation)
    (child : Option ChildWidget) : GtkAllocation × Option ChildAllocation :=
  let topbar_width : Int := get_topbar_width allocation.width
  let child_allocation : ChildAllocation :=
    { x := allocation.x + topbar_width
      y := allocation.y
      width := (allocation.width : Int) - topbar_width
      height := (allocation.height : Int) }
  match child with
  | some c => if c.visible then (allocation, some child_allocation) else (allocation, none)
  | none => (allocation, none)

/-- Embedding of `anaconda_hub_window_size_allocate` (HubWindow.c): textually
the same computation as the spoke version, with the sidebar width in place of
the topbar width. -/
def anaconda_hub_window_size_allocate (allocation : GtkAllocation)
    (child : Option ChildWidget) : GtkAllocation × Option ChildAllocation :=
  let sidebar_width : Int := get_sidebar_width allocation.width
  let child_allocation : ChildAllocation :=
    { x := allocation.x + sidebar_width
      y := allocation.y
      width := (allocation.width : Int) - sidebar_width
      height := (allocation.height : Int) }
  match child with
  | some c => if c.visible then (allocation, some child_allocation) else (allocation, none)
  | none => (allocation, none)

/-- Pixel dimensions of a successfully loaded GdkPixbuf. -/
structure PixbufInfo where
  width : Nat
  height : Nat
  deriving DecidableEq

/-- One compositing call issued by the draw override, in source order.  The
arguments record exactly the values the C code passes to cairo/GDK. -/
inductive DrawOp where
  | parentClassDraw
  | rectangle (x y w h : Int)
  | setSourceRGBA (r g b a : ℚ)
  | fillPreserve
  | pixbufNewFromFile (path : String)
  | surfaceCreateFromPixbuf
  | setSourceSurface (x y : Int)
  | patternSetExtendRepeat
  | fill
  deriving DecidableEq

/-- Embedding of `anaconda_spoke_window_on_draw` (SpokeWindow.c) as the list
of compositing calls it issues: parent-class draw, the topbar rectangle
(18% width, full height), the base colour 65/255, 65/255, 62/255, alpha 1,
`cairo_fill_preserve`, the unconditional noise-texture load/surface/repeat
fill, then the logo load; only when the logo pixbuf loaded (`some`) are the
logo surface, placement `((bar_width - logo_width) / 2, 20)` (C `int`
division, i.e. truncation: `Int.tdiv`) and fill issued.  The `noise`
argument records the load result of the texture pixbuf; the calls issued do
not depend on it, exactly as in the source, which passes the possibly-NULL
pixbuf straight on. -/
def anaconda_spoke_window_on_draw (alloc : GtkAllocation)
    (_noise : Option PixbufInfo) (logo : Option PixbufInfo) : List DrawOp :=
  [DrawOp.parentClassDraw,
   DrawOp.rectangle 0 0 (get_topbar_width alloc.width) alloc.height,
   DrawOp.setSourceRGBA (65/255) (65/255) (62/255) 1,
   DrawOp.fillPreserve,
   DrawOp.pixbufNewFromFile ("/usr/share/anaconda/pixmaps/noise-texture.png"),
   DrawOp.surfaceCreateFromPixbuf,
   DrawOp.setSourceSurface 0 0,
   DrawOp.patternSetExtendRepeat,
   DrawOp.fill,
   DrawOp.pixbufNewFromFile ("/usr/share/anaconda/pixmaps/redhat-logo.png")] ++
  match logo with
  | none => []
  | some img =>
      [DrawOp.surfaceCreateFromPixbuf,
       DrawOp.setSourceSurface
         (Int.tdiv ((get_topbar_width alloc.width : Int) - (img.width : Int)) 2) 20,
       DrawOp.rectangle
         (Int.tdiv ((get_topbar_width alloc.width : Int) - (img.width : Int)) 2) 20
         (img.width : Int) (img.height : Int),
       DrawOp.fill]

/-- Embedding of `anaconda_hub_window_on_draw` (HubWindow.c): the same
compositing calls in the same order as the spoke version (sidebar instead
of topbar), with the same image paths, colour and logo placement.  The hub
version additionally unrefs the two pixbufs before returning
(`g_object_unref`), a resource-management step that issues no compositing
call and is therefore not part of this list. -/
def anaconda_hub_window_on_draw (alloc : GtkAllocation)
    (_noise : Option PixbufInfo) (logo : Option PixbufInfo) : List DrawOp :=
  [DrawOp.parentClassDraw,
   DrawOp.rectangle 0 0 (get_sidebar_width alloc.width) alloc.height,
   DrawOp.setSourceRGBA (65/255) (65/255) (62/255) 1,
   DrawOp.fillPreserve,
   DrawOp.pixbufNewFromFile ("/usr/share/anaconda/pixmaps/noise-texture.png"),
   DrawOp.surfaceCreateFromPixbuf,
   DrawOp.setSourceSurface 0 0,
   DrawOp.patternSetExtendRepeat,
   DrawOp.fill,
   DrawOp.pixbufNewFromFile ("/usr/share/anaconda/pixmaps/redhat-logo.png")] ++
  match logo with
  | none => []
  | some img =>
      [DrawOp.surfaceCreateFromPixbuf,
       DrawOp.setSourceSurface
         (Int.tdiv ((get_sidebar_width alloc.width : Int) - (img.width : Int)) 2) 20,
       DrawOp.rectangle
         (Int.tdiv ((get_sidebar_width alloc.width : Int) - (img.width : Int)) 2) 20
         (img.width : Int) (img.height : Int),
       DrawOp.fill]

/-! ## HubWindow buildable internal children (HubWindow.c)

Widgets are modelled by numeric identifiers; distinct widgets have distinct
identifiers. -/

/-- Modelled from the spec: `AnacondaBaseWindow` (BaseWindow.c is not among
the sources here) provides a navigation area, an action area and an
alignment container, and its GtkBuildable implementation exposes the action
area under the name "action_area" ("the action area which is always
addressable").  Its three widgets get the identifiers 0, 1, 2. -/
structure AnacondaBaseWindow where
  nav_area : Nat := 0
  action_area : Nat := 1
  alignment_container : Nat := 2
  deriving DecidableEq

/-- Modelled from the spec: the parent buildable interface
(`parent_buildable_iface->get_internal_child`) resolves "action_area" to the
base window's action area; unrecognized names fail according to the base
system's own contract (`none`). -/
def anaconda_base_window_buildable_get_internal_child (base : AnacondaBaseWindow)
    (childname : String) : Option Nat :=
  if childname = "action_area" then some base.action_area else none

structure AnacondaHubWindow where
  base : AnacondaBaseWindow
  scrolled_window : Nat
  deriving DecidableEq

/-- Embedding of `anaconda_hub_window_new` / `anaconda_hub_window_init`
(HubWindow.c): `gtk_scrolled_window_new(NULL, NULL)` creates a fresh scrolled
window — a widget distinct from every widget of the base window (identifier
3, while the base window owns 0, 1, 2) — and packs it into the action area. -/
def anaconda_hub_window_new : AnacondaHubWindow :=
  { base := {}, scrolled_window := 3 }

/-- Embedding of `anaconda_hub_window_get_spoke_area` (HubWindow.c):
`return win->priv->scrolled_window;`. -/
def anaconda_hub_window_get_spoke_area (win : AnacondaHubWindow) : Nat :=
  win.scrolled_window

/-- Embedding of `anaconda_hub_window_buildable_get_internal_child`
(HubWindow.c): the name "scrolled_window" resolves through
`anaconda_hub_window_get_spoke_area`; every other name is delegated to
`parent_buildable_iface->get_internal_child`. -/
def anaconda_hub_window_buildable_get_internal_child (win : AnacondaHubWindow)
    (childname : String) : Option Nat :=
  if childname = "scrolled_window" then
    some (anaconda_hub_window_get_spoke_area win)
  else
    anaconda_base_window_buildable_get_internal_child win.base childname

/-! ## SpokeWindow button-clicked signal (SpokeWindow.c)

`anaconda_spoke_window_init` connects the button's "clicked" signal once to
`anaconda_spoke_window_button_clicked` and connects the window's "map"
signal to `anaconda_spoke_window_realize`; every time the window is
displayed (mapped), `realize` runs and registers one more F12 accelerator
on the button via a fresh accel group. -/

/-- A GObject signal emission: the signal name and the number of arguments
passed besides the emitting instance. -/
structure SignalEmission where
  signalName : String
  argumentCount : Nat
  deriving DecidableEq

/-- Embedding of `anaconda_spoke_window_button_clicked` (SpokeWindow.c):
`g_signal_emit(win, window_signals[SIGNAL_BUTTON_CLICKED], 0)` — one
emission of the window-level signal registered in `class_init` with
`g_cclosure_marshal_VOID__VOID, G_TYPE_NONE, 0`, i.e. zero arguments. -/
def anaconda_spoke_window_button_clicked : List SignalEmission :=
  [⟨"button-clicked", 0⟩]

/-- The part of a SpokeWindow's state the button-clicked behaviour depends
on: how many F12 accelerator registrations have accumulated (one per
map/realize). -/
structure SpokeWindowState where
  f12Accelerators : Nat
  deriving DecidableEq

/-- State after `anaconda_spoke_window_init`: no accelerator yet; the
"clicked" handler is connected exactly once. -/
def anaconda_spoke_window_init_state : SpokeWindowState :=
  ⟨0⟩

/-- Effect of one "map" (display) of the window:
`anaconda_spoke_window_realize` runs and `gtk_widget_add_accelerator` adds
one more F12 accelerator for the button's "clicked" signal. -/
def anaconda_spoke_window_map (s : SpokeWindowState) : SpokeWindowState :=
  ⟨s.f12Accelerators + 1⟩

/-- The window displayed `n` times after construction. -/
def spoke_window_displayed : Nat → SpokeWindowState
  | 0 => anaconda_spoke_window_init_state
  | n + 1 => anaconda_spoke_window_map (spoke_window_displayed n)

/-- Window-level signals emitted by one pointer activation of the Done
button: GTK emits the button's "clicked" signal once, whose single connected
handler is `anaconda_spoke_window_button_clicked`. -/
def spoke_pointer_activation (_s : SpokeWindowState) : List SignalEmission :=
  anaconda_spoke_window_button_clicked

/-- Window-level signals emitted by one F12 key press on the displayed
window: `gtk_accel_groups_activate` finds the first accelerator in any
accel group attached to the window that matches the key and activates it
(documented GTK contract), so with at least one registration the button's
"clicked" fires once; with none, nothing happens. -/
def spoke_f12_key_press (s : SpokeWindowState) : List SignalEmission :=
  if 1 ≤ s.f12Accelerators then anaconda_spoke_window_button_clicked else []

/-! ## Disk enumeration stub (data/command-stubs/list-harddrives-stub)

The stub filters `parted.getAllDevices()`, strips the `/dev/` prefix,
collects `(path, size)` pairs into a Python set (deduplication), sorts the
set as tuples (lexicographically: path first, size as tie-break) and prints
them.  The set's iteration order is irrelevant because the final list is
sorted and its elements are distinct, so the set-then-sort is modelled as
dedup-then-sort. -/

/-- A device as reported by parted: `isDM` models
`d.type == parted.DEVICE_DM`, `path` is `d.path`, `size` is the opaque
numeric payload `d.getSize()`. -/
structure PartedDevice where
  isDM : Bool
  path : String
  size : Nat
  deriving DecidableEq

/-- Embedding of the stub's prefix stripping: `path = dev.path[5:]` when the
path starts with "/dev/", else the path unchanged. -/
def strip_dev (p : String) : String :=
  if p.startsWith ("/dev/") then p.drop 5 else p

/-- Embedding of the stub's filter:
`d.type != parted.DEVICE_DM and not d.path.startswith("/dev/sr")`. -/
def keepDevice (d : PartedDevice) : Bool :=
  !d.isDM && !(d.path.startsWith ("/dev/sr"))

/-- Python tuple comparison on `(path, size)` pairs: path first,
size as tie-break. -/
def deviceLe (a b : String × Nat) : Prop :=
  a.1 < b.1 ∨ (a.1 = b.1 ∧ a.2 ≤ b.2)

instance : DecidableRel deviceLe := fun a b => by
  unfold deviceLe; infer_instance

instance : IsTotal (String × Nat) deviceLe where
  total a b := by
    rcases lt_trichotomy a.1 b.1 with h | h | h
    · exact Or.inl (Or.inl h)
    · rcases le_total a.2 b.2 with h2 | h2
      · exact Or.inl (Or.inr ⟨h, h2⟩)
      · exact Or.inr (Or.inr ⟨h.symm, h2⟩)
    · exact Or.inr (Or.inl h)

instance : IsTrans (String × Nat) deviceLe where
  trans a b c hab hbc := by
    rcases hab with h1 | ⟨h1, h1'⟩ <;> rcases hbc with h2 | ⟨h2, h2'⟩
    · exact Or.inl (lt_trans h1 h2)
    · exact Or.inl (h2 ▸ h1)
    · exact Or.inl (h1 ▸ h2)
    · exact Or.inr ⟨h1.trans h2, le_trans h1' h2'⟩

/-- Embedding of `main` of list-harddrives-stub: filter, strip, collect into
a set, sort ascending, in source order. -/
def list_harddrives_main (devices : List PartedDevice) : List (String × Nat) :=
  List.insertionSort deviceLe
    (((devices.filter keepDevice).map (fun d => (strip_dev d.path, d.size))).dedup)

/-! ## run_yum_transaction (scripts/anaconda-yum)

Control flow of `run_yum_transaction`, with each external yum/rpm call
abstracted to its outcome (success or a raised exception) and the exact
lines the function prints reproduced.  In `yum.Errors`, `RepoError`,
`PackageSackError` and `YumRPMTransError` are all subclasses of
`YumBaseError`, so an `except YumBaseError` clause catches them too. -/

/-- Exception raised by one of the yum calls outside the
`yb.runTransaction` block. -/
inductive YumExc where
  | repoError (msg : String)
  | yumBaseError (msg : String)
  | unexpected (msg : String)
  deriving DecidableEq

/-- Whether `except YumBaseError` catches the exception (`RepoError` is a
`YumBaseError` subclass). -/
def YumExc.isYumBaseError : YumExc → Bool
  | .repoError _ => true
  | .yumBaseError _ => true
  | .unexpected _ => false

def YumExc.message : YumExc → String
  | .repoError m => m
  | .yumBaseError m => m
  | .unexpected m => m

/-- Exception observable from `yb.runTransaction(cb=rpmcb)`: the yum error
classes its handlers name, or a plain `Exception` raised by the
`RPMCallback` (cpio/unpack/script/getPackage errors). -/
inductive TransExc where
  | packageSackError (msg : String)
  | yumRPMTransError (msg : String) (errors : List String)
  | yumBaseError (msg : String) (errors : List String)
  | otherException (msg : String)
  deriving DecidableEq

/-- Outcomes of the external calls made by one run of
`run_yum_transaction`, in program order. -/
structure YumRun where
  /-- `yum.YumBase()` through `yb.ts.ts.setColor(3)` (silent on success). -/
  setup : Except YumExc Unit
  /-- `yb.populateTs(keepold=0)`. -/
  populate : Except YumExc Unit
  /-- `yb.ts.check()`. -/
  tsCheck : Except YumExc Unit
  /-- `yb.ts.order()`, `yb.ts.clean()`, opening the script log, `setFlags`. -/
  tsOrder : Except YumExc Unit
  /-- Lines printed by the RPMCallback while `yb.runTransaction` runs. -/
  transOut : List String
  /-- Result of `yb.runTransaction(cb=rpmcb)`. -/
  trans : Except TransExc Unit

/-- Embedding of the `try: yb.runTransaction(...) except ... else ... finally`
block: each handler prints its `ERROR:` lines and falls through; only a
plain exception from the callback escapes (as a Python `Exception`, caught
further out by `except Exception`); the `finally` (ts.close, logfile.close)
prints nothing. -/
def runTransactionBlock (tOut : List String) (res : Except TransExc Unit) :
    List String × Except YumExc Unit :=
  match res with
  | .ok _ => (tOut ++ ["INFO: transaction complete"], .ok ())
  | .error (.packageSackError m) =>
      (tOut ++ ["ERROR: PackageSackError: " ++ m], .ok ())
  | .error (.yumRPMTransError m errs) =>
      (tOut ++ (("ERROR: YumRPMTransError: " ++ m) ::
        errs.map (fun er => "ERROR:    " ++ er)), .ok ())
  | .error (.yumBaseError m errs) =>
      (tOut ++ (("ERROR: YumBaseError: " ++ m) ::
        errs.map (fun er => "ERROR:    " ++ er)), .ok ())
  | .error (.otherException m) => (tOut, .error (.unexpected m))

/-- Embedding of the body of the outer `try` of `run_yum_transaction`: the
lines it prints and the exception (if any) escaping to the outer handlers.
The `except RepoError` around `populateTs` prints its `ERROR:` line and the
`QUIT:` marker and then executes `return`, skipping the rest of the body. -/
def run_yum_transaction_body (r : YumRun) : List String × Except YumExc Unit :=
  match r.setup with
  | .error e => ([], .error e)
  | .ok _ =>
    match r.populate with
    | .error (.repoError m) =>
        (["DEBUG: populate transaction set",
          "ERROR: error populating transaction: " ++ m,
          "QUIT:"], .ok ())
    | .error e => (["DEBUG: populate transaction set"], .error e)
    | .ok _ =>
      match r.tsCheck with
      | .error e =>
          (["DEBUG: populate transaction set",
            "DEBUG: check transaction set"], .error e)
      | .ok _ =>
        match r.tsOrder with
        | .error e =>
            (["DEBUG: populate transaction set",
              "DEBUG: check transaction set",
              "DEBUG: order transaction set"], .error e)
        | .ok _ =>
          let tb := runTransactionBlock r.transOut r.trans
          (["DEBUG: populate transaction set",
            "DEBUG: check transaction set",
            "DEBUG: order transaction set",
            "INFO: running transaction"] ++ tb.1, tb.2)

/-- Embedding of `run_yum_transaction` (anaconda-yum): the outer
`except YumBaseError` / `except Exception` handlers report the error, and
the outer `finally` unconditionally prints the `QUIT:` completion marker. -/
def run_yum_transaction (r : YumRun) : List String :=
  (match (run_yum_transaction_body r).2 with
   | .ok _ => (run_yum_transaction_body r).1
   | .error e =>
       (run_yum_transaction_body r).1 ++
         [if e.isYumBaseError then "ERROR: transaction error: " ++ e.message
          else "ERROR: unexpected error: " ++ e.message]) ++
  ["QUIT:"]

/-- An execution of `run_yum_transaction` in which some error path was
taken: one of the abstracted calls raised. -/
def YumRun.failed (r : YumRun) : Prop :=
  r.setup ≠ .ok () ∨ r.populate ≠ .ok () ∨ r.tsCheck ≠ .ok () ∨
    r.tsOrder ≠ .ok () ∨ r.trans ≠ .ok ()

/-! ## RPMCallback progress accounting (scripts/anaconda-yum)

The fields of `RPMCallback` that `trans_start` and `inst_open_file`
read/write, and the stdout lines those two methods print.  The download
section at the end of `inst_open_file` (getRepo/getPackage and the retry
loop) only touches `self.package_file`, prints `DEBUG:`/`ERROR:` lines and
may raise; it never touches `completed_actions`/`total_actions` and never
prints a progress line, so it is outside this model. -/

structure RPMCallbackState where
  total_actions : Nat
  /-- `None` until `trans_start` runs (`self.completed_actions = None` in
  `__init__`). -/
  completed_actions : Option Nat
  deriving DecidableEq

/-- State after `RPMCallback.__init__`. -/
def RPMCallback_init_state : RPMCallbackState :=
  { total_actions := 0, completed_actions := none }

/-- Embedding of `RPMCallback.trans_start`: prints `PROGRESS_PREP:` when
`amount == 6`, saves the total and resets the completed counter to 0. -/
def RPMCallback_trans_start (amount total : Nat) (_s : RPMCallbackState) :
    RPMCallbackState × List String :=
  ({ total_actions := total, completed_actions := some 0 },
   if amount = 6 then ["PROGRESS_PREP:"] else [])

/-- Embedding of the progress-accounting part of
`RPMCallback.inst_open_file`: the optional `DEBUG: txmbr = ...` line, then —
only when `completed_actions` is not `None` — the increment of the counter
and the `PROGRESS_INSTALL:` line, with the `.arch` suffix exactly when the
package arch is neither "noarch" nor the base arch. -/
def RPMCallback_inst_open_file (debug : Bool) (pkgName pkgArch baseArch : String)
    (s : RPMCallbackState) : RPMCallbackState × List String :=
  let debugOut := if debug then ["DEBUG: txmbr = " ++ pkgName] else []
  match s.completed_actions with
  | none => (s, debugOut)
  | some k =>
      let completed := k + 1
      let progress_package :=
        if pkgArch = "noarch" ∨ pkgArch = baseArch then pkgName
        else pkgName ++ "." ++ pkgArch
      ({ s with completed_actions := some completed },
       debugOut ++
         ["PROGRESS_INSTALL: " ++ progress_package ++ " (" ++
           toString completed ++ "/" ++ toString s.total_actions ++ ")"])

/-- An rpm callback invocation relevant to progress accounting. -/
inductive RPMEvent where
  | transStart (amount total : Nat)
  | instOpenFile (pkgName pkgArch : String)
  deriving DecidableEq

/-- Dispatch one callback invocation against the accumulated state and
output. -/
def RPMCallback_step (debug : Bool) (baseArch : String)
    (acc : RPMCallbackState × List String) (e : RPMEvent) :
    RPMCallbackState × List String :=
  match e with
  | .transStart a t =>
      let r := RPMCallback_trans_start a t acc.1
      (r.1, acc.2 ++ r.2)
  | .instOpenFile n ar =>
      let r := RPMCallback_inst_open_file debug n ar baseArch acc.1
      (r.1, acc.2 ++ r.2)

/-- Run a sequence of callback invocations from a fresh `RPMCallback`. -/
def RPMCallback_run (debug : Bool) (baseArch : String) (evs : List RPMEvent) :
    RPMCallbackState × List String :=
  evs.foldl (RPMCallback_step debug baseArch) (RPMCallback_init_state, [])

theorem bitLenAux_zero (fuel : Nat) : bitLenAux fuel 0 = 0 := by
  cases fuel <;> simp [bitLenAux]

theorem bitLenAux_spec : ∀ fuel v, v ≤ fuel → 1 ≤ v →
    2 ^ (bitLenAux fuel v - 1) ≤ v ∧ v < 2 ^ bitLenAux fuel v := by
  intro fuel
  induction fuel with
  | zero => intro v hv h1; omega
  | succ f ih =>
    intro v hv h1
    rw [bitLenAux, if_neg (by omega : ¬ v = 0)]
    by_cases h2 : v = 1
    · subst h2
      simp [bitLenAux_zero]
    · have hv2 : 1 ≤ v / 2 := by omega
      have hle : v / 2 ≤ f := by omega
      obtain ⟨ih1, ih2⟩ := ih (v / 2) hle hv2
      set b := bitLenAux f (v / 2) with hb
      have hb1 : 1 ≤ b := by
        rcases Nat.eq_zero_or_pos b with h0 | h0
        · rw [h0] at ih2; simp at ih2; omega
        · exact h0
      have hpow : 2 ^ b = 2 * 2 ^ (b - 1) := by
        conv_lhs => rw [show b = (b - 1) + 1 by omega]
        rw [pow_succ]; ring
      have hpow2 : 2 ^ (b + 1) = 2 * 2 ^ b := by rw [pow_succ]; ring
      constructor
      · simp only [Nat.add_sub_cancel]
        omega
      · omega

theorem bitLen_spec (v : Nat) (h1 : 1 ≤ v) :
    2 ^ (bitLen v - 1) ≤ v ∧ v < 2 ^ bitLen v :=
  bitLenAux_spec v v le_rfl h1

theorem roundSig_ge (v : Nat) (hv : ¬ v < 2 ^ 24) :
    v / 2 ^ (bitLen v - 24) * 2 ^ (bitLen v - 24) ≤ roundSig v := by
  rw [roundSig, if_neg hv]
  split
  · exact Nat.mul_le_mul_right _ (Nat.le_succ _)
  · exact le_rfl

theorem roundSig_le (v : Nat) (hv : ¬ v < 2 ^ 24) (hs : 1 ≤ bitLen v - 24) :
    roundSig v ≤ v + 2 ^ (bitLen v - 24 - 1) := by
  rw [roundSig, if_neg hv]
  set s := bitLen v - 24 with hsdef
  have hdm := Nat.div_add_mod v (2 ^ s)
  have hpow : 2 ^ s = 2 * 2 ^ (s - 1) := by
    conv_lhs => rw [show s = (s - 1) + 1 by omega]
    rw [pow_succ]; ring
  split
  · next h =>
      have hr : 2 ^ (s - 1) ≤ v % 2 ^ s := by
        rcases h with h | ⟨h, _⟩ <;> omega
      have e1 : (v / 2 ^ s + 1) * 2 ^ s = 2 ^ s * (v / 2 ^ s) + 2 ^ s := by ring
      rw [e1]
      omega
  · have := Nat.div_mul_le_self v (2 ^ s)
    omega

/-- For widths below 2^24 the int-to-float conversion inside the bar-width
computation is exact. -/
theorem roundSig_small (w : Nat) (h : w < 2 ^ 24) : roundSig w = w := by
  rw [roundSig, if_pos h]

theorem get_topbar_width_floor (w : Nat) (h : w ≤ 1456355) :
    get_topbar_width w = 18 * w / 100 := by
  have h24 : (2 : Nat) ^ 24 = 16777216 := by norm_num
  have hw24 : w < 2 ^ 24 := by omega
  rw [get_topbar_width, roundSig_small w hw24]
  by_cases hv : 3019899 * w < 2 ^ 24
  · rw [roundSig, if_pos hv]
    have h1 : 3019899 * w / 2 ^ 24 = 0 := Nat.div_eq_of_lt hv
    have h2 : 18 * w / 100 = 0 := Nat.div_eq_of_lt (by omega)
    omega
  · set v := 3019899 * w with hvdef
    have hv1 : 1 ≤ v := by omega
    have hvlt : v < 2 ^ 42 := by
      have : v ≤ 3019899 * 1456355 := Nat.mul_le_mul_left _ h
      norm_num at this ⊢
      omega
    obtain ⟨hbl, hbh⟩ := bitLen_spec v hv1
    have hbge : 25 ≤ bitLen v := by
      by_contra hc
      push_neg at hc
      have : (2 : Nat) ^ bitLen v ≤ 2 ^ 24 :=
        Nat.pow_le_pow_right (by norm_num) (by omega)
      omega
    have hble : bitLen v ≤ 42 := by
      by_contra hc
      push_neg at hc
      have : (2 : Nat) ^ 42 ≤ 2 ^ (bitLen v - 1) :=
        Nat.pow_le_pow_right (by norm_num) (by omega)
      omega
    set s := bitLen v - 24 with hsdef
    have hs1 : 1 ≤ s := by omega
    have hs18 : s ≤ 18 := by omega
    set k := 18 * w / 100 with hkdef
    have hdm : 100 * k + 18 * w % 100 = 18 * w := Nat.div_add_mod (18 * w) 100
    have hmod : 18 * w % 100 < 100 := Nat.mod_lt _ (by norm_num)
    -- lower bound: k * 2^24 ≤ roundSig v
    have hkv : k * 2 ^ 24 ≤ v := by
      rw [h24, hvdef]
      omega
    have hfac : k * 2 ^ 24 = k * 2 ^ (24 - s) * 2 ^ s := by
      rw [mul_assoc, ← pow_add]
      congr 2
      omega
    have hlow : k * 2 ^ 24 ≤ roundSig v := by
      refine le_trans ?_ (roundSig_ge v hv)
      rw [hfac]
      refine Nat.mul_le_mul_right _ ?_
      rw [Nat.le_div_iff_mul_le (Nat.pos_pow_of_pos s (by norm_num))]
      rw [← hfac]
      exact hkv
    -- upper bound: roundSig v < (k + 1) * 2^24
    have hsmall : (2 : Nat) ^ (s - 1) ≤ 2 ^ 17 :=
      Nat.pow_le_pow_right (by norm_num) (by omega)
    have h17 : (2 : Nat) ^ 17 = 131072 := by norm_num
    have hup : roundSig v < (k + 1) * 2 ^ 24 := by
      have h1 := roundSig_le v hv hs1
      rw [← hsdef] at h1
      rw [Nat.add_mul, one_mul, h24]
      rw [h24] at hkv
      have hvw : v = 3019899 * w := hvdef
      omega
    exact Nat.div_eq_of_lt_le hlow hup

/-! ## Helper lemmas -/

theorem spoke_displayed_count (n : Nat) :
    (spoke_window_displayed n).f12Accelerators = n := by
  induction n with
  | zero => rfl
  | succ n ih => simp [spoke_window_displayed, anaconda_spoke_window_map, ih]

/-- A line built as an "ERROR: "-prefixed literal followed by a message has
the shape "ERROR: " ++ t. -/
theorem err_line_shape (rest m : String) :
    ∃ t, ("ERROR: " ++ rest) ++ m = "ERROR: " ++ t :=
  ⟨rest ++ m, String.append_assoc _ _ _⟩

theorem populate_line_ne_quit (m : String) :
    ("ERROR: error populating transaction: " ++ m) ≠ "QUIT:" := by
  intro h
  have h2 := congrArg String.length h
  have h3 : ("ERROR: error populating transaction: ").length = 37 := rfl
  have h4 : ("QUIT:").length = 5 := rfl
  rw [String.length_append] at h2
  omega

theorem debug_txmbr_ne_progress (a b : String) :
    ("DEBUG: txmbr = " ++ a) ≠ ("PROGRESS_INSTALL: " ++ b) := by
  intro h
  have h2 := congrArg String.data h
  simp [String.data_append] at h2

/-- Folding a sequence of rpm callback invocations that contains no
`trans_start` never sets the completed counter and only appends
`DEBUG: txmbr = ...` lines to the output. -/
theorem RPMCallback_no_start_aux (debug : Bool) (baseArch : String)
    (evs : List RPMEvent)
    (h : ∀ e ∈ evs, ∀ a t, e ≠ RPMEvent.transStart a t) :
    ∀ s out, s.completed_actions = none →
      ((evs.foldl (RPMCallback_step debug baseArch) (s, out)).1.completed_actions = none ∧
        ∀ l ∈ (evs.foldl (RPMCallback_step debug baseArch) (s, out)).2,
          l ∈ out ∨ ∃ a, l = "DEBUG: txmbr = " ++ a) := by
  induction evs with
  | nil => exact fun s out hs => ⟨hs, fun l hl => Or.inl hl⟩
  | cons e es ih =>
    intro s out hs
    have h' : ∀ e ∈ es, ∀ a t, e ≠ RPMEvent.transStart a t :=
      fun e he => h e (List.mem_cons_of_mem _ he)
    cases e with
    | transStart a t => exact absurd rfl (h _ (List.mem_cons_self _ _) a t)
    | instOpenFile n ar =>
      rw [List.foldl_cons]
      have hstep : RPMCallback_step debug baseArch (s, out) (RPMEvent.instOpenFile n ar) =
          (s, out ++ (if debug then ["DEBUG: txmbr = " ++ n] else [])) := by
        simp [RPMCallback_step, RPMCallback_inst_open_file, hs]
      rw [hstep]
      obtain ⟨ih1, ih2⟩ := ih h' s (out ++ (if debug then ["DEBUG: txmbr = " ++ n] else [])) hs
      refine ⟨ih1, fun l hl => ?_⟩
      rcases ih2 l hl with h2 | h2
      · rcases List.mem_append.1 h2 with h3 | h3
        · exact Or.inl h3
        · refine Or.inr ⟨n, ?_⟩
          rcases Bool.eq_false_or_eq_true debug with hd | hd <;> rw [hd] at h3 <;> simp at h3
          exact h3
      · exact Or.inr h2

/-! ## Claim theorems -/

/-- C1 (amended): for every window width W with 0 ≤ W ≤ 1456355 — in
particular every width at which 3019899·W stays below 2^42, covering all
realistic window widths — the decorative bar width computed by
`get_topbar_width` (SpokeWindow) and `get_sidebar_width` (HubWindow) equals
floor(W × 0.18); the computation is a pure function of the width, so
repeated resize calls with the same width always yield the same value.  For
larger W the single-precision arithmetic can exceed floor(W × 0.18) by one
(see the counterexample at W = 2796211). -/
theorem claim_c1_bar_width_floor (w : Nat) (h : w ≤ 1456355) :
    get_topbar_width w = 18 * w / 100 ∧ get_sidebar_width w = 18 * w / 100 :=
  ⟨get_topbar_width_floor w h, get_topbar_width_floor w h⟩

theorem claim_c1_witness :
    50 ≤ 1456355 ∧
      (get_topbar_width 50 = 18 * 50 / 100 ∧ get_sidebar_width 50 = 18 * 50 / 100) :=
  ⟨by norm_num, claim_c1_bar_width_floor 50 (by norm_num)⟩

/-- C1 counterexample: at window width W = 2796211 the C computation
(int)(W * 0.18f) yields 503318, while floor(W × 0.18) = 503317 — the
single-precision representation 0.18f = 3019899/2^24 exceeds 0.18 by enough
that the product crosses the next integer.  So the claim is false as stated
for all W ≥ 0. -/
theorem claim_c1_counterexample :
    ¬ (get_topbar_width 2796211 = 18 * 2796211 / 100 ∧
        get_sidebar_width 2796211 = 18 * 2796211 / 100) := by
  decide

/-- C2: on every size_allocate of a SpokeWindow or HubWindow with a visible
child, the window stores the new allocation and the child receives
x = window.x + bar width, y = window.y, width = window.width - bar width,
height = window.height; with an invisible or absent child, the child's
allocation is not touched. -/
theorem claim_c2_child_allocation (a : GtkAllocation) (c : ChildWidget) :
    (c.visible = true →
      (anaconda_spoke_window_size_allocate a (some c)).2 =
        some { x := a.x + (get_topbar_width a.width : Int), y := a.y,
               width := (a.width : Int) - (get_topbar_width a.width : Int),
               height := (a.height : Int) } ∧
      (anaconda_hub_window_size_allocate a (some c)).2 =
        some { x := a.x + (get_sidebar_width a.width : Int), y := a.y,
               width := (a.width : Int) - (get_sidebar_width a.width : Int),
               height := (a.height : Int) } ∧
      (anaconda_spoke_window_size_allocate a (some c)).1 = a ∧
      (anaconda_hub_window_size_allocate a (some c)).1 = a) ∧
    (c.visible = false →
      (anaconda_spoke_window_size_allocate a (some c)).2 = none ∧
      (anaconda_hub_window_size_allocate a (some c)).2 = none) ∧
    (anaconda_spoke_window_size_allocate a none).2 = none ∧
    (anaconda_hub_window_size_allocate a none).2 = none := by
  refine ⟨?_, ?_, rfl, rfl⟩
  · intro hv
    simp [anaconda_spoke_window_size_allocate, anaconda_hub_window_size_allocate, hv]
  · intro hv
    simp [anaconda_spoke_window_size_allocate, anaconda_hub_window_size_allocate, hv]

theorem claim_c2_witness :
    (anaconda_spoke_window_size_allocate ⟨5, 7, 100, 200⟩ (some ⟨true⟩)).2 =
      some { x := 5 + (get_topbar_width 100 : Int), y := 7,
             width := (100 : Int) - (get_topbar_width 100 : Int),
             height := (200 : Int) } ∧
    (anaconda_hub_window_size_allocate ⟨5, 7, 100, 200⟩ (some ⟨true⟩)).2 =
      some { x := 5 + (get_sidebar_width 100 : Int), y := 7,
             width := (100 : Int) - (get_sidebar_width 100 : Int),
             height := (200 : Int) } ∧
    (anaconda_spoke_window_size_allocate ⟨5, 7, 100, 200⟩ (some ⟨true⟩)).1 = ⟨5, 7, 100, 200⟩ ∧
    (anaconda_hub_window_size_allocate ⟨5, 7, 100, 200⟩ (some ⟨true⟩)).1 = ⟨5, 7, 100, 200⟩ :=
  (claim_c2_child_allocation ⟨5, 7, 100, 200⟩ ⟨true⟩).1 rfl

/-- C4: HubWindow's draw and size-allocate overrides are exactly the same
function of the window's allocation as SpokeWindow's — the sidebar width
function coincides with the topbar width function (same 18% fraction), the
draw override issues the identical compositing calls in the identical
order, and size_allocate produces identical child allocations for every
allocation, child and image-load outcome. -/
theorem claim_c4_hub_mirrors_spoke :
    ∀ (a : GtkAllocation) (noise logo : Option PixbufInfo)
      (child : Option ChildWidget) (w : Nat),
      anaconda_hub_window_on_draw a noise logo =
        anaconda_spoke_window_on_draw a noise logo ∧
      anaconda_hub_window_size_allocate a child =
        anaconda_spoke_window_size_allocate a child ∧
      get_sidebar_width w = get_topbar_width w :=
  fun _ _ _ _ _ => ⟨rfl, rfl, rfl⟩

/-- C5: on a HubWindow, the buildable internal-child lookup for
"scrolled_window" returns exactly the widget of
`anaconda_hub_window_get_spoke_area`, that widget is distinct from the one
returned for "action_area", and every other name is delegated to the parent
buildable interface. -/
theorem claim_c5_internal_child :
    (anaconda_hub_window_buildable_get_internal_child anaconda_hub_window_new
        ("scrolled_window") =
      some (anaconda_hub_window_get_spoke_area anaconda_hub_window_new)) ∧
    anaconda_hub_window_buildable_get_internal_child anaconda_hub_window_new
        ("scrolled_window") ≠
      anaconda_hub_window_buildable_get_internal_child anaconda_hub_window_new
        ("action_area") ∧
    ∀ childname, childname ≠ "scrolled_window" →
      anaconda_hub_window_buildable_get_internal_child anaconda_hub_window_new
          childname =
        anaconda_base_window_buildable_get_internal_child
          anaconda_hub_window_new.base childname := by
  refine ⟨by decide, by decide, ?_⟩
  intro childname h
  rw [anaconda_hub_window_buildable_get_internal_child, if_neg h]

theorem claim_c5_witness :
    anaconda_hub_window_buildable_get_internal_child anaconda_hub_window_new
        ("action_area") =
      anaconda_base_window_buildable_get_internal_child
        anaconda_hub_window_new.base ("action_area") :=
  claim_c5_internal_child.2.2 ("action_area") (by decide)

/-- C6: on a SpokeWindow that has been displayed at least once (so that key
events can reach it), one pointer activation of the Done button emits the
window-level "button-clicked" notification exactly once with zero
arguments, and one F12 key press does the same — no matter how many times
the window has been displayed (each display re-registers the F12
accelerator, but GTK activates only the first matching accelerator). -/
theorem claim_c6_button_clicked (n : Nat) (h : 1 ≤ n) :
    spoke_pointer_activation (spoke_window_displayed n) = [⟨"button-clicked", 0⟩] ∧
    spoke_f12_key_press (spoke_window_displayed n) = [⟨"button-clicked", 0⟩] := by
  refine ⟨rfl, ?_⟩
  rw [spoke_f12_key_press, spoke_displayed_count, if_pos h]
  rfl

theorem claim_c6_witness :
    spoke_pointer_activation (spoke_window_displayed 2) = [⟨"button-clicked", 0⟩] ∧
    spoke_f12_key_press (spoke_window_displayed 2) = [⟨"button-clicked", 0⟩] :=
  claim_c6_button_clicked 2 (by decide)

/-- C7: for every input device list — duplicates, device-mapper devices and
/dev/sr devices included — the stub's output contains exactly the stripped
(path, size) pairs of the devices that are not device-mapper devices and
whose path does not start with /dev/sr (so all
device-mapper and /dev/sr entries are excluded), contains no duplicate
entries, and is sorted ascending by stripped path. -/
theorem claim_c7_list_harddrives (devices : List PartedDevice) :
    (∀ p, p ∈ list_harddrives_main devices ↔
        ∃ d ∈ devices, d.isDM = false ∧ d.path.startsWith ("/dev/sr") = false ∧
          p = (strip_dev d.path, d.size)) ∧
    (list_harddrives_main devices).Nodup ∧
    List.Pairwise (fun a b : String × Nat => a.1 ≤ b.1)
      (list_harddrives_main devices) := by
  have hperm := List.perm_insertionSort deviceLe
    (((devices.filter keepDevice).map (fun d => (strip_dev d.path, d.size))).dedup)
  refine ⟨?_, ?_, ?_⟩
  · intro p
    rw [list_harddrives_main, hperm.mem_iff, List.mem_dedup, List.mem_map]
    constructor
    · rintro ⟨d, hd, rfl⟩
      rw [List.mem_filter] at hd
      have hk := hd.2
      simp only [keepDevice, Bool.and_eq_true, Bool.not_eq_true'] at hk
      exact ⟨d, hd.1, hk.1, hk.2, rfl⟩
    · rintro ⟨d, hd, h1, h2, rfl⟩
      refine ⟨d, List.mem_filter.2 ⟨hd, ?_⟩, rfl⟩
      simp only [keepDevice, Bool.and_eq_true, Bool.not_eq_true']
      exact ⟨h1, h2⟩
  · exact hperm.symm.nodup (List.nodup_dedup _)
  · exact List.Pairwise.imp
      (fun hab => hab.elim (fun h => le_of_lt h) (fun h => le_of_eq h.1))
      (List.sorted_insertionSort deviceLe _)

/-- C8: whatever error path `run_yum_transaction` takes — a repository error
while populating the transaction, an RPM transaction error, a plain
exception raised from the rpm callback (cpio/unpack/script failure), or any
unexpected exception caught at top level — an "ERROR: ..." line is printed
and the completion marker "QUIT:" is the last line printed before the
function returns (the outer finally emits it unconditionally, on success
too). -/
theorem claim_c8_error_reported_and_quit : ∀ r : YumRun,
    (run_yum_transaction r).getLast? = some ("QUIT:") ∧
    (YumRun.failed r → ∃ l ∈ run_yum_transaction r, ∃ t, l = "ERROR: " ++ t) := by
  intro r
  constructor
  · rw [run_yum_transaction]
    exact List.getLast?_concat _
  · intro hf
    obtain ⟨setup, populate, tsCheck, tsOrder, transOut, trans⟩ := r
    cases setup with
    | error e =>
      cases e with
      | repoError m =>
        exact ⟨"ERROR: transaction error: " ++ m,
          by simp [run_yum_transaction, run_yum_transaction_body,
            YumExc.isYumBaseError, YumExc.message],
          err_line_shape ("transaction error: ") m⟩
      | yumBaseError m =>
        exact ⟨"ERROR: transaction error: " ++ m,
          by simp [run_yum_transaction, run_yum_transaction_body,
            YumExc.isYumBaseError, YumExc.message],
          err_line_shape ("transaction error: ") m⟩
      | unexpected m =>
        exact ⟨"ERROR: unexpected error: " ++ m,
          by simp [run_yum_transaction, run_yum_transaction_body,
            YumExc.isYumBaseError, YumExc.message],
          err_line_shape ("unexpected error: ") m⟩
    | ok u =>
      cases populate with
      | error e =>
        cases e with
        | repoError m =>
          exact ⟨"ERROR: error populating transaction: " ++ m,
            by simp [run_yum_transaction, run_yum_transaction_body],
            err_line_shape ("error populating transaction: ") m⟩
        | yumBaseError m =>
          exact ⟨"ERROR: transaction error: " ++ m,
            by simp [run_yum_transaction, run_yum_transaction_body,
              YumExc.isYumBaseError, YumExc.message],
            err_line_shape ("transaction error: ") m⟩
        | unexpected m =>
          exact ⟨"ERROR: unexpected error: " ++ m,
            by simp [run_yum_transaction, run_yum_transaction_body,
              YumExc.isYumBaseError, YumExc.message],
            err_line_shape ("unexpected error: ") m⟩
      | ok u2 =>
        cases tsCheck with
        | error e =>
          cases e with
          | repoError m =>
            exact ⟨"ERROR: transaction error: " ++ m,
              by simp [run_yum_transaction, run_yum_transaction_body,
                YumExc.isYumBaseError, YumExc.message],
              err_line_shape ("transaction error: ") m⟩
          | yumBaseError m =>
            exact ⟨"ERROR: transaction error: " ++ m,
              by simp [run_yum_transaction, run_yum_transaction_body,
                YumExc.isYumBaseError, YumExc.message],
              err_line_shape ("transaction error: ") m⟩
          | unexpected m =>
            exact ⟨"ERROR: unexpected error: " ++ m,
              by simp [run_yum_transaction, run_yum_transaction_body,
                YumExc.isYumBaseError, YumExc.message],
              err_line_shape ("unexpected error: ") m⟩
        | ok u3 =>
          cases tsOrder with
          | error e =>
            cases e with
            | repoError m =>
              exact ⟨"ERROR: transaction error: " ++ m,
                by simp [run_yum_transaction, run_yum_transaction_body,
                  YumExc.isYumBaseError, YumExc.message],
                err_line_shape ("transaction error: ") m⟩
            | yumBaseError m =>
              exact ⟨"ERROR: transaction error: " ++ m,
                by simp [run_yum_transaction, run_yum_transaction_body,
                  YumExc.isYumBaseError, YumExc.message],
                err_line_shape ("transaction error: ") m⟩
            | unexpected m =>
              exact ⟨"ERROR: unexpected error: " ++ m,
                by simp [run_yum_transaction, run_yum_transaction_body,
                  YumExc.isYumBaseError, YumExc.message],
                err_line_shape ("unexpected error: ") m⟩
          | ok u4 =>
            cases trans with
            | error e =>
              cases e with
              | packageSackError m =>
                exact ⟨"ERROR: PackageSackError: " ++ m,
                  by simp [run_yum_transaction, run_yum_transaction_body,
                    runTransactionBlock],
                  err_line_shape ("PackageSackError: ") m⟩
              | yumRPMTransError m errs =>
                exact ⟨"ERROR: YumRPMTransError: " ++ m,
                  by simp [run_yum_transaction, run_yum_transaction_body,
                    runTransactionBlock],
                  err_line_shape ("YumRPMTransError: ") m⟩
              | yumBaseError m errs =>
                exact ⟨"ERROR: YumBaseError: " ++ m,
                  by simp [run_yum_transaction, run_yum_transaction_body,
                    runTransactionBlock],
                  err_line_shape ("YumBaseError: ") m⟩
              | otherException m =>
                exact ⟨"ERROR: unexpected error: " ++ m,
                  by simp [run_yum_transaction, run_yum_transaction_body,
                    runTransactionBlock, YumExc.isYumBaseError, YumExc.message],
                  err_line_shape ("unexpected error: ") m⟩
            | ok u5 =>
              exfalso
              simp [YumRun.failed] at hf

theorem claim_c8_witness :
    (run_yum_transaction
        { setup := Except.ok (), populate := Except.error (YumExc.repoError ("no mirror")),
          tsCheck := Except.ok (), tsOrder := Except.ok (), transOut := [],
          trans := Except.ok () }).getLast? = some ("QUIT:") ∧
    ∃ l ∈ run_yum_transaction
        { setup := Except.ok (), populate := Except.error (YumExc.repoError ("no mirror")),
          tsCheck := Except.ok (), tsOrder := Except.ok (), transOut := [],
          trans := Except.ok () }, ∃ t, l = "ERROR: " ++ t := by
  have h := claim_c8_error_reported_and_quit
    { setup := Except.ok (), populate := Except.error (YumExc.repoError ("no mirror")),
      tsCheck := Except.ok (), tsOrder := Except.ok (), transOut := [],
      trans := Except.ok () }
  exact ⟨h.1, h.2 (Or.inr (Or.inl (fun hc => Except.noConfusion hc)))⟩

/-- C9: when `yb.populateTs` raises a RepoError, `run_yum_transaction`
prints "QUIT:" twice — once in the `except RepoError` handler before the
early return and once more from the unconditional outer finally — so a
parent parser sees two QUIT: lines for that failure mode. -/
theorem claim_c9_double_quit (m : String) (r : YumRun)
    (h1 : r.setup = Except.ok ()) (h2 : r.populate = Except.error (YumExc.repoError m)) :
    List.count ("QUIT:") (run_yum_transaction r) = 2 := by
  obtain ⟨setup, populate, tsCheck, tsOrder, transOut, trans⟩ := r
  simp only at h1 h2
  subst h1
  subst h2
  have hrun : run_yum_transaction
      { setup := Except.ok (), populate := Except.error (YumExc.repoError m),
        tsCheck := tsCheck, tsOrder := tsOrder, transOut := transOut,
        trans := trans } =
      ["DEBUG: populate transaction set",
       "ERROR: error populating transaction: " ++ m, "QUIT:", "QUIT:"] := rfl
  rw [hrun]
  have hne := populate_line_ne_quit m
  simp [List.count_cons, hne]

theorem claim_c9_witness :
    List.count ("QUIT:") (run_yum_transaction
      { setup := Except.ok (),
        populate := Except.error (YumExc.repoError ("mirror unreachable")),
        tsCheck := Except.ok (), tsOrder := Except.ok (), transOut := [],
        trans := Except.ok () }) = 2 :=
  claim_c9_double_quit ("mirror unreachable") _ rfl rfl

/-- C10: in the rpm callback, the completed-actions counter is None until
`trans_start` runs (which sets it to 0), and `inst_open_file` increments it
and prints a "PROGRESS_INSTALL: ..." line only when it is not None — a
package file opened before the transaction starts (e.g. for a %pretrans
script) produces no progress output and does not count toward the
installed-package total. -/
theorem claim_c10_pretrans_gating :
    (∀ (debug : Bool) (baseArch : String) (evs : List RPMEvent),
      (∀ e ∈ evs, ∀ a t, e ≠ RPMEvent.transStart a t) →
      (RPMCallback_run debug baseArch evs).1.completed_actions = none ∧
      ∀ l ∈ (RPMCallback_run debug baseArch evs).2,
        ∀ u, l ≠ "PROGRESS_INSTALL: " ++ u) ∧
    (∀ (debug : Bool) (pkgName pkgArch baseArch : String)
      (s : RPMCallbackState) (k : Nat),
      s.completed_actions = some k →
      (RPMCallback_inst_open_file debug pkgName pkgArch baseArch s).1.completed_actions
          = some (k + 1) ∧
      ∃ u, ("PROGRESS_INSTALL: " ++ u) ∈
        (RPMCallback_inst_open_file debug pkgName pkgArch baseArch s).2) ∧
    (∀ a t s, (RPMCallback_trans_start a t s).1.completed_actions = some 0) := by
  refine ⟨?_, ?_, fun a t s => rfl⟩
  · intro debug baseArch evs h
    obtain ⟨h1, h2⟩ :=
      RPMCallback_no_start_aux debug baseArch evs h RPMCallback_init_state [] rfl
    refine ⟨h1, fun l hl u hlu => ?_⟩
    rcases h2 l hl with h3 | ⟨a, h3⟩
    · simp at h3
    · rw [hlu] at h3
      exact debug_txmbr_ne_progress a u h3.symm
  · intro debug pkgName pkgArch baseArch s k hk
    constructor
    · simp [RPMCallback_inst_open_file, hk]
    · refine ⟨(if pkgArch = "noarch" ∨ pkgArch = baseArch then pkgName
          else pkgName ++ "." ++ pkgArch) ++
          (" (" ++ (toString (k + 1) ++ ("/" ++ (toString s.total_actions ++ ")")))), ?_⟩
      simp only [RPMCallback_inst_open_file, hk]
      refine List.mem_append_right _ ?_
      simp [String.append_assoc]

theorem claim_c10_witness :
    (RPMCallback_run true ("x86_64")
        [RPMEvent.instOpenFile ("bash") ("x86_64")]).1.completed_actions = none ∧
    ∀ l ∈ (RPMCallback_run true ("x86_64")
        [RPMEvent.instOpenFile ("bash") ("x86_64")]).2,
      ∀ u, l ≠ "PROGRESS_INSTALL: " ++ u :=
  claim_c10_pretrans_gating.1 true ("x86_64")
    [RPMEvent.instOpenFile ("bash") ("x86_64")]
    (by
      intro e he a t
      simp only [List.mem_singleton] at he
      subst he
      simp)
